import Mathlib

/-!
Verification of the ramiServer backend: a shallow embedding of its
user/todo data model and request handlers (src/routes/auth.js,
src/routes/todos.js, src/models), with theorems checking the
natural-language specification against the code.

Conventions of the embedding:
* MongoDB documents become Lean structures; a collection is a `List`
  in insertion order.  `findOne`/`findById` become `List.find?` (first
  match, as Mongo returns documents in natural order), `find` becomes
  `List.filter`, `deleteMany` removes every match, `deleteOne` /
  `findByIdAndDelete` remove the first match.
* An HTTP response is a status code plus a body (and an optional
  cookie, set only by login).
* `crypto.createHash('sha512')...` is abstracted as an uninterpreted
  deterministic function `hash : String → String` passed to the
  handlers that use it; no theorem relies on any property of it.
* A signed JWT is a record of its claims together with the secret it
  was signed with; signature verification compares that secret with
  the server's.  Real time is not modelled: a token carries an
  `expired` flag that issuance sets to `false`.
-/

namespace RamiServer

/-- A document of the `todos` collection (src/models/todo.js):
content, creation time, and the owning user reference. -/
structure Todo where
  _id : String
  content : String
  createdTime : String
  userId : String
deriving DecidableEq, Repr

/-- A document of the `user_infos` collection (src/models/user_info.js). -/
structure UserInfo where
  _id : String
  email : String
  password : String
  username : String
  createdTime : String
deriving DecidableEq, Repr

/-- The document store: the two collections the server uses. -/
structure DB where
  users : List UserInfo
  todos : List Todo
deriving DecidableEq, Repr

/-- The environment-configured JWT parameters (issuer, audience,
signing secret) read from `process.env` in src/routes/auth.js. -/
structure JwtConfig where
  iss : String
  aud : String
  secret : String
deriving DecidableEq, Repr

/-- A signed bearer token: the claims set by `jwt.sign` in the login
handler, with the signing secret standing in for the signature and an
`expired` flag standing in for the `exp` claim against real time. -/
structure JwtToken where
  iss : String
  aud : String
  sub : String
  sig : String
  expired : Bool
deriving DecidableEq, Repr

/-- A response body: every handler answers with one of these JSON
shapes. -/
inductive Body where
  | err (msg : String)
  | msg (m : String)
  | token (t : JwtToken)
  | todoList (ts : List Todo)
  | todoItem (t : Todo)
  | userItem (u : UserInfo)
deriving DecidableEq, Repr

/-- An HTTP response: status code, JSON body, and the optional
`res.cookie('user', token)` set by login. -/
structure Response where
  status : Nat
  body : Body
  cookie : Option JwtToken
deriving DecidableEq, Repr

/-- Truthiness of an optional string field of a JSON request body:
JavaScript `!x` is true exactly when the field is absent or the empty
string. -/
def falsy : Option String → Bool
  | none => true
  | some s => s.isEmpty

/-- Character class `[a-zA-Z0-9._%+-]` of the email regex in
src/routes/auth.js. -/
def isLocalChar (c : Char) : Bool :=
  c.isAlpha || c.isDigit || c == '.' || c == '_' || c == '%' || c == '+' || c == '-'

/-- Character class `[a-zA-Z0-9.-]` of the email regex. -/
def isDomainChar (c : Char) : Bool :=
  c.isAlpha || c.isDigit || c == '.' || c == '-'

/-- The test `/^[a-zA-Z0-9._%+-]+@[a-zA-Z0-9.-]+\.[a-zA-Z]{2,}$/.test(email)`
from the `/public/search` handler.  Both character classes exclude
`@`, so a match has exactly one `@`; the trailing `[a-zA-Z]{2,}$`
excludes `.`, so the dot it consumes is the last dot of the domain
part. -/
def emailRegexTest (s : String) : Bool :=
  match s.toList.splitOn '@' with
  | [l, d] =>
    let r := d.reverse
    let tldR := r.takeWhile (fun c => c != '.')
    (!l.isEmpty) && l.all isLocalChar &&
    (match r.drop tldR.length with
     | '.' :: preR =>
       decide (2 ≤ tldR.length) && tldR.all Char.isAlpha &&
       (!preR.isEmpty) && preR.all isDomainChar
     | _ => false)
  | _ => false

/-- Hex digit as accepted by `mongoose.Types.ObjectId.isValid`'s
24-character form. -/
def isHexChar (c : Char) : Bool :=
  c.isDigit || ('a' ≤ c && c ≤ 'f') || ('A' ≤ c && c ≤ 'F')

/-- `mongoose.Types.ObjectId.isValid` on a string: any 12-character
string (12 bytes) or a 24-character hex string. -/
def isValidObjectId (s : String) : Bool :=
  s.length == 12 || (s.length == 24 && s.toList.all isHexChar)

/-- Remove the first todo whose `_id` matches: `document.deleteOne()`
issued for the fetched todo. -/
def removeFirstTodo (id : String) : List Todo → List Todo
  | [] => []
  | t :: ts => if t._id == id then ts else t :: removeFirstTodo id ts

/-- Remove the first user whose `_id` matches:
`UserInfo.findByIdAndDelete(userId)`. -/
def removeFirstUser (id : String) : List UserInfo → List UserInfo
  | [] => []
  | u :: us => if u._id == id then us else u :: removeFirstUser id us

/-! ### Auth service (src/routes/auth.js) -/

/-- Handler of `GET /api/auth/public/search`: validate the email
against the regex (400 on mismatch, before any store access), then
409 if a user with that email exists, else 200. -/
def search (email : String) (db : DB) : Response :=
  if !emailRegexTest email then ⟨400, .err "Bad request", none⟩
  else
    match db.users.find? (fun u => u.email == email) with
    | some _ => ⟨409, .err "User with this email already exists", none⟩
    | none => ⟨200, .msg "OK", none⟩

/-- Body of `POST /api/auth/public/login`. -/
structure LoginBody where
  email : Option String
  password : Option String
deriving DecidableEq, Repr

/-- The token `jwt.sign(options, secret, {expiresIn})` issues after the
login handler set `options.sub = user._id`: claims issuer, audience and
subject, signed with the server secret, not yet expired. -/
def mkToken (cfg : JwtConfig) (sub : String) : JwtToken :=
  ⟨cfg.iss, cfg.aud, sub, cfg.secret, false⟩

/-- Handler of `POST /api/auth/public/login`: 400 if email or password
is missing/empty; then look up a user whose email matches and whose
stored password equals the hash of the supplied password; on a match,
200 with the signed token in the body and in the `user` cookie;
otherwise the constant 401 `Invalid credentials` response. -/
def login (hash : String → String) (cfg : JwtConfig) (body : LoginBody)
    (db : DB) : Response :=
  if falsy body.email || falsy body.password then ⟨400, .err "Bad request", none⟩
  else
    let e := body.email.getD ""
    let p := body.password.getD ""
    match db.users.find? (fun u => u.email == e && u.password == hash p) with
    | some u => ⟨200, .token (mkToken cfg u._id), some (mkToken cfg u._id)⟩
    | none => ⟨401, .err "Invalid credentials", none⟩

/-- Body of `POST /api/auth/public/sign-up`. -/
structure SignUpBody where
  email : Option String
  password : Option String
  username : Option String
deriving DecidableEq, Repr

/-- Handler of `POST /api/auth/public/sign-up`: 400 if a field is
missing/empty; 400 if a user with that email already exists (no
write); otherwise append a user with the hashed password and the
server-generated timestamp `now` and a store-generated `newId`, and
return it with 201. -/
def signUp (hash : String → String) (body : SignUpBody)
    (newId now : String) (db : DB) : Response × DB :=
  if falsy body.email || falsy body.password || falsy body.username then
    (⟨400, .err "Bad request", none⟩, db)
  else
    let e := body.email.getD ""
    match db.users.find? (fun u => u.email == e) with
    | some _ =>
      (⟨400, .err "Bad request or user with this email already exists", none⟩, db)
    | none =>
      let user : UserInfo :=
        ⟨newId, e, hash (body.password.getD ""), body.username.getD "", now⟩
      (⟨201, .userItem user, none⟩, { db with users := db.users ++ [user] })

/-- Handler of `DELETE /api/auth/private/delete-account` (after token
verification bound `userId`): `findByIdAndDelete(userId)` then
`Todo.deleteMany({userId})`, answering 200 unconditionally when the
store operations do not error. -/
def deleteAccount (userId : String) (db : DB) : Response × DB :=
  (⟨200, .msg "Account deleted successfully", none⟩,
   ⟨removeFirstUser userId db.users,
    db.todos.filter (fun t => !(t.userId == userId))⟩)

/-! ### Session verifier (routes/middlewares/authorization, not under
src/) -/

/-- Modelled from the spec: the `verifyToken` middleware of
routes/middlewares/authorization is absent from the sources; §4.2
describes it as a pure, stateless gate that checks the bearer token's
signature against the server secret, its expiry, and the expected
issuer and audience, exposing the subject claim to the next stage on
success and answering 401 on any failure, with no store access. -/
def verifyToken (cfg : JwtConfig) (tok : Option JwtToken) : Option String :=
  match tok with
  | none => none
  | some t =>
    if t.sig == cfg.secret && t.iss == cfg.iss && t.aud == cfg.aud && !t.expired
    then some t.sub else none

/-! ### Todo service (src/routes/todos.js) -/

/-- Handler of `GET /api/todos/private` (after token verification
bound `userId` from `res.locals.sub`): `Todo.find({userId})`, 404 if
the result is empty, else 200 with the list. -/
def listMine (userId : String) (db : DB) : Response :=
  let todos := db.todos.filter (fun t => t.userId == userId)
  if todos.length == 0 then ⟨404, .err "Not Found", none⟩
  else ⟨200, .todoList todos, none⟩

/-- Body of `POST /api/todos/private`: the schema fields a client may
supply (`new Todo(req.body)` picks up `content`, `createdTime` and
`userId` from the body when present). -/
structure CreateBody where
  content : Option String
  createdTime : Option String
  userId : Option String
deriving DecidableEq, Repr

/-- Handler of `POST /api/todos/private` (after token verification
bound `uid`): 400 if `content` is missing/empty; otherwise construct
the todo from the request body, overwrite `userId` with the caller's
identity and `createdTime` with the formatted current date, save it
(store-generated `newId`) and return it with 201. -/
def createTodo (uid : String) (body : CreateBody) (newId now : String)
    (db : DB) : Response × DB :=
  if falsy body.content then (⟨400, .err "Bad Request", none⟩, db)
  else
    let todo0 : Todo :=
      ⟨newId, body.content.getD "", body.createdTime.getD "", body.userId.getD ""⟩
    let todo : Todo := { todo0 with userId := uid, createdTime := now }
    (⟨201, .todoItem todo, none⟩, { db with todos := db.todos ++ [todo] })

/-- The `getTodo` middleware of src/routes/todos.js: 400 on a missing
path id, 415 if it is not a well-formed ObjectId (before any store
lookup), 404 if `Todo.findById` finds nothing, otherwise pass the
found todo to the next stage as `res.todo`. -/
def getTodo (todoId : String) (db : DB) : Except Response Todo :=
  if todoId.isEmpty then .error ⟨400, .err "Bad Request", none⟩
  else if !isValidObjectId todoId then
    .error ⟨415, .err "Unsupported Media Type", none⟩
  else
    match db.todos.find? (fun t => t._id == todoId) with
    | none => .error ⟨404, .err "Not Found", none⟩
    | some t => .ok t

/-- Handler chain of `PATCH /api/todos/private/todos/:id` after token
verification: the `getTodo` gate, then 400 if `content` is
missing/empty, else `Todo.updateMany({_id: todo._id}, {$set: {content}})`
and the generic `{message: 'OK'}` acknowledgment. -/
def patchTodo (todoId : String) (content : Option String) (db : DB) :
    Response × DB :=
  match getTodo todoId db with
  | .error r => (r, db)
  | .ok todo =>
    if falsy content then (⟨400, .err "Bad Request", none⟩, db)
    else
      (⟨200, .msg "OK", none⟩,
       { db with todos :=
           db.todos.map (fun t =>
             if t._id == todo._id then { t with content := content.getD "" } else t) })

/-- Handler chain of `DELETE /api/todos/private/todos/:id` after token
verification: the `getTodo` gate, then `res.todo.deleteOne()` and the
generic `{message: 'OK'}` acknowledgment. -/
def deleteTodo (todoId : String) (db : DB) : Response × DB :=
  match getTodo todoId db with
  | .error r => (r, db)
  | .ok todo =>
    (⟨200, .msg "OK", none⟩, { db with todos := removeFirstTodo todo._id db.todos })

/-! ### Full routes: session verifier composed with the handlers -/

/-- The 401 response the session verifier short-circuits with
(modelled from the spec, §4.2). -/
def unauthorized : Response := ⟨401, .err "Unauthorized", none⟩

/-- `GET /api/todos/private` behind `verifyToken`. -/
def listMineRoute (cfg : JwtConfig) (tok : Option JwtToken) (db : DB) : Response :=
  match verifyToken cfg tok with
  | none => unauthorized
  | some uid => listMine uid db

/-- `DELETE /api/auth/private/delete-account` behind `verifyToken`. -/
def deleteAccountRoute (cfg : JwtConfig) (tok : Option JwtToken) (db : DB) :
    Response × DB :=
  match verifyToken cfg tok with
  | none => (unauthorized, db)
  | some uid => deleteAccount uid db

/-- `PATCH /api/todos/private/todos/:id` behind `verifyToken`.  The
verified subject is bound but, as in the source, never consulted by
the gate or the update. -/
def patchTodoRoute (cfg : JwtConfig) (tok : Option JwtToken) (todoId : String)
    (content : Option String) (db : DB) : Response × DB :=
  match verifyToken cfg tok with
  | none => (unauthorized, db)
  | some _ => patchTodo todoId content db

/-- `DELETE /api/todos/private/todos/:id` behind `verifyToken`. -/
def deleteTodoRoute (cfg : JwtConfig) (tok : Option JwtToken) (todoId : String)
    (db : DB) : Response × DB :=
  match verifyToken cfg tok with
  | none => (unauthorized, db)
  | some _ => deleteTodo todoId db

/-! ### Helper lemmas -/

/-- A successful `find?` splits the list at the first match. -/
theorem find?_decomp {α : Type} (p : α → Bool) (l : List α) (a : α)
    (h : l.find? p = some a) :
    ∃ l1 l2, l = l1 ++ a :: l2 ∧ ∀ x ∈ l1, p x = false := by
  induction l with
  | nil => simp [List.find?] at h
  | cons b bs ih =>
    by_cases hb : p b = true
    · rw [List.find?_cons_of_pos _ hb] at h
      injection h with h2
      exact ⟨[], bs, by simp [h2], by simp⟩
    · rw [List.find?_cons_of_neg _ hb] at h
      obtain ⟨l1, l2, hl, hall⟩ := ih h
      refine ⟨b :: l1, l2, by simp [hl], ?_⟩
      intro x hx
      rcases List.mem_cons.mp hx with hx | hx
      · simpa [hx] using Bool.eq_false_iff.mpr hb
      · exact hall x hx

/-- Removing the first todo with a given id from a list whose prefix
avoids that id drops exactly the splitting element. -/
theorem removeFirstTodo_decomp (id : String) (l1 l2 : List Todo) (t : Todo)
    (ht : t._id = id) (h : ∀ x ∈ l1, x._id ≠ id) :
    removeFirstTodo id (l1 ++ t :: l2) = l1 ++ l2 := by
  induction l1 with
  | nil => simp [removeFirstTodo, ht]
  | cons b bs ih =>
    have hb : b._id ≠ id := h b (by simp)
    simp only [List.cons_append, removeFirstTodo, beq_iff_eq, hb, if_false]
    exact congrArg (List.cons b) (ih fun x hx => h x (List.mem_cons_of_mem b hx))

/-- After removing the only user with a given id, no user with that id
is left. -/
theorem removeFirstUser_find?_none (uid : String) (l : List UserInfo)
    (h : (l.filter (fun u => u._id == uid)).length ≤ 1) :
    (removeFirstUser uid l).find? (fun u => u._id == uid) = none := by
  induction l with
  | nil => simp [removeFirstUser]
  | cons b bs ih =>
    by_cases hb : b._id = uid
    · simp only [removeFirstUser, beq_iff_eq, hb, if_true]
      rw [List.find?_eq_none]
      intro x hx
      simp only [List.filter_cons, beq_iff_eq, hb, if_pos rfl] at h
      have hnil : bs.filter (fun u => u._id == uid) = [] := by
        have := Nat.le_of_succ_le_succ h
        exact List.length_eq_zero.mp (Nat.le_zero.mp this)
      have := List.filter_eq_nil_iff.mp hnil x hx
      simpa using this
    · simp only [removeFirstUser, beq_iff_eq, hb, if_false]
      rw [List.find?_cons_of_neg _ (by simpa using hb)]
      apply ih
      simp only [List.filter_cons, beq_iff_eq, hb, if_false] at h
      exact h

/-! ### Claims -/

/-- C10: delete-account never reports NotFound and is idempotent at
the interface: for every authenticated identity `uid` and every store,
the handler answers 200 `Account deleted successfully` — in
particular on a store holding no user with that identifier, and again
on an immediately repeated delete-account with the same identity. -/
theorem C10_delete_account_always_ok (uid : String) (db : DB) :
    (deleteAccount uid db).1 = ⟨200, .msg "Account deleted successfully", none⟩ ∧
    (deleteAccount uid (deleteAccount uid db).2).1
      = ⟨200, .msg "Account deleted successfully", none⟩ := ⟨rfl, rfl⟩

/-- C6: list-mine returns exactly the todos whose owner reference
equals the caller's identity, and reports 404 Not Found — never an
empty 200 list — when that set is empty. -/
theorem C6_list_mine_exact (uid : String) (db : DB) :
    (db.todos.filter (fun t => t.userId == uid) = [] →
      listMine uid db = ⟨404, .err "Not Found", none⟩) ∧
    (db.todos.filter (fun t => t.userId == uid) ≠ [] →
      ∃ ts, listMine uid db = ⟨200, .todoList ts, none⟩ ∧
        ∀ t, t ∈ ts ↔ t ∈ db.todos ∧ t.userId = uid) := by
  constructor
  · intro h
    simp [listMine, h]
  · intro h
    refine ⟨db.todos.filter (fun t => t.userId == uid), ?_, ?_⟩
    · have hlen : (db.todos.filter (fun t => t.userId == uid)).length ≠ 0 :=
        fun hc => h (List.length_eq_zero.mp hc)
      simp [listMine, hlen]
    · intro t
      simp [List.mem_filter]

/-- C6 witness: a user with one todo gets exactly that todo; a user
with none gets 404. -/
theorem C6_witness :
    ([⟨"000000000000000000000001", "milk", "t0", "A"⟩] :
        List Todo).filter (fun t => t.userId == "B") = [] ∧
    listMine "B" ⟨[], [⟨"000000000000000000000001", "milk", "t0", "A"⟩]⟩
      = ⟨404, .err "Not Found", none⟩ :=
  ⟨by decide,
   (C6_list_mine_exact "B" ⟨[], [⟨"000000000000000000000001", "milk", "t0", "A"⟩]⟩).1
     (by decide)⟩

/-- C8: check-email-availability rejects a malformed email with 400
independently of the store (no store query), and on a well-formed
email answers 200 exactly when no user has that email and 409 exactly
when one does. -/
theorem C8_search_email (email : String) (db : DB) :
    (emailRegexTest email = false →
      search email db = ⟨400, .err "Bad request", none⟩) ∧
    (emailRegexTest email = true →
      ((search email db).status = 200 ↔ ∀ u ∈ db.users, u.email ≠ email) ∧
      ((search email db).status = 409 ↔ ∃ u ∈ db.users, u.email = email)) := by
  constructor
  · intro h
    simp [search, h]
  · intro h
    cases hf : db.users.find? (fun u => u.email == email) with
    | none =>
      have hall := List.find?_eq_none.mp hf
      have hs : search email db = ⟨200, .msg "OK", none⟩ := by
        simp [search, h, hf]
      rw [hs]
      constructor
      · constructor
        · intro _ u hu
          simpa using hall u hu
        · intro _
          rfl
      · constructor
        · intro hc
          exact absurd hc (by decide)
        · rintro ⟨u, hu, hue⟩
          have := hall u hu
          simp [hue] at this
    | some u =>
      have hmem := List.mem_of_find?_eq_some hf
      have hpe : u.email = email := by simpa using List.find?_some hf
      have hs : search email db
          = ⟨409, .err "User with this email already exists", none⟩ := by
        simp [search, h, hf]
      rw [hs]
      constructor
      · constructor
        · intro hc
          exact absurd hc (by decide)
        · intro hallne
          exact absurd hpe (hallne u hmem)
      · exact ⟨fun _ => ⟨u, hmem, hpe⟩, fun _ => rfl⟩

/-- C8 witness: a malformed input is rejected with 400 on a concrete
store. -/
theorem C8_witness :
    emailRegexTest "not-an-email" = false ∧
    search "not-an-email" ⟨[⟨"A", "a@b.com", "H", "u", "t0"⟩], []⟩
      = ⟨400, .err "Bad request", none⟩ :=
  ⟨by decide,
   (C8_search_email "not-an-email" ⟨[⟨"A", "a@b.com", "H", "u", "t0"⟩], []⟩).1
     (by decide)⟩

/-- C3: create-todo rejects an absent/empty content with 400 and
leaves the store unchanged; otherwise it appends exactly one todo
whose owner is the authenticated caller — whatever owner the request
body carried — and whose creation time is the server-generated one. -/
theorem C3_create_todo_owner (uid : String) (body : CreateBody)
    (newId now : String) (db : DB) :
    (falsy body.content = true →
      createTodo uid body newId now db = (⟨400, .err "Bad Request", none⟩, db)) ∧
    (falsy body.content = false →
      ∃ t, createTodo uid body newId now db
          = (⟨201, .todoItem t, none⟩, { db with todos := db.todos ++ [t] }) ∧
        t.userId = uid ∧ t.createdTime = now) := by
  constructor
  · intro h
    simp [createTodo, h]
  · intro h
    refine ⟨⟨newId, body.content.getD "", now, uid⟩, ?_, rfl, rfl⟩
    simp [createTodo, h]

/-- C3 witness: a request body attempting to set the owner to `B`
still yields a todo owned by the authenticated caller `A`. -/
theorem C3_witness :
    falsy (some "buy milk") = false ∧
    ∃ t, createTodo "A" ⟨some "buy milk", some "1999", some "B"⟩ "N" "now" ⟨[], []⟩
        = (⟨201, .todoItem t, none⟩, { (⟨[], []⟩ : DB) with todos := [] ++ [t] }) ∧
      t.userId = "A" ∧ t.createdTime = "now" :=
  ⟨by decide,
   (C3_create_todo_owner "A" ⟨some "buy milk", some "1999", some "B"⟩ "N" "now"
     ⟨[], []⟩).2 (by decide)⟩

/-- C5: a sign-up whose email already belongs to a stored user is
answered with status 400 and leaves the user store exactly as it
was — no record altered, none created. -/
theorem C5_signup_duplicate (hash : String → String) (body : SignUpBody)
    (newId now : String) (db : DB) (e : String)
    (he : body.email = some e) (hex : ∃ u ∈ db.users, u.email = e) :
    (signUp hash body newId now db).1.status = 400 ∧
    (signUp hash body newId now db).2 = db := by
  by_cases hfal : (falsy body.email || falsy body.password || falsy body.username) = true
  · simp [signUp, hfal]
  · have hfind : db.users.find? (fun u => u.email == e) ≠ none := by
      intro hn
      obtain ⟨u, hu, hue⟩ := hex
      have := List.find?_eq_none.mp hn u hu
      simp [hue] at this
    cases hf : db.users.find? (fun u => u.email == e) with
    | none => exact absurd hf hfind
    | some u =>
      have hge : body.email.getD "" = e := by rw [he]; rfl
      simp [signUp, hfal, hge, hf]

/-- C5 witness: re-registering `a@b.com` against a store already
holding it yields 400 and the untouched store. -/
theorem C5_witness :
    ((⟨some "a@b.com", some "p2", some "v"⟩ : SignUpBody).email = some "a@b.com") ∧
    (∃ u ∈ (⟨[⟨"A", "a@b.com", "H", "u", "t0"⟩], []⟩ : DB).users, u.email = "a@b.com") ∧
    (signUp (fun s => String.append s "#") ⟨some "a@b.com", some "p2", some "v"⟩
        "N" "now" ⟨[⟨"A", "a@b.com", "H", "u", "t0"⟩], []⟩).1.status = 400 ∧
    (signUp (fun s => String.append s "#") ⟨some "a@b.com", some "p2", some "v"⟩
        "N" "now" ⟨[⟨"A", "a@b.com", "H", "u", "t0"⟩], []⟩).2
      = ⟨[⟨"A", "a@b.com", "H", "u", "t0"⟩], []⟩ :=
  ⟨rfl, ⟨⟨"A", "a@b.com", "H", "u", "t0"⟩, by decide, rfl⟩,
   C5_signup_duplicate (fun s => String.append s "#")
     ⟨some "a@b.com", some "p2", some "v"⟩ "N" "now"
     ⟨[⟨"A", "a@b.com", "H", "u", "t0"⟩], []⟩ "a@b.com" rfl
     ⟨⟨"A", "a@b.com", "H", "u", "t0"⟩, by decide, rfl⟩⟩

/-- C2: with correct credentials — a stored user whose email matches
and whose stored password digest equals the digest of the supplied
password — login answers 200 with a signed token whose subject claim
is that user's identifier, the same token in the body and in the
cookie; with wrong credentials it answers the one constant 401
`Invalid credentials` response, independent of the store, so the
response cannot reveal whether the email exists. -/
theorem C2_login_token_and_no_leak (hash : String → String) (cfg : JwtConfig)
    (e p : String) (he : e ≠ "") (hp : p ≠ "") :
    (∀ db u, db.users.find? (fun v => v.email == e && v.password == hash p) = some u →
      login hash cfg ⟨some e, some p⟩ db
        = ⟨200, .token (mkToken cfg u._id), some (mkToken cfg u._id)⟩ ∧
      (mkToken cfg u._id).sub = u._id) ∧
    (∀ db, db.users.find? (fun v => v.email == e && v.password == hash p) = none →
      login hash cfg ⟨some e, some p⟩ db = ⟨401, .err "Invalid credentials", none⟩) := by
  have hfe : falsy (some e) = false := by
    simp only [falsy]
    rw [Bool.eq_false_iff]
    intro hc
    exact he ((String.isEmpty_iff e).mp hc)
  have hfp : falsy (some p) = false := by
    simp only [falsy]
    rw [Bool.eq_false_iff]
    intro hc
    exact hp ((String.isEmpty_iff p).mp hc)
  constructor
  · intro db u hf
    refine ⟨?_, rfl⟩
    simp [login, hfe, hfp, hf]
  · intro db hf
    simp [login, hfe, hfp, hf]

/-- C2 witness: on a concrete store, login with the correct password
yields the token for user `A` in body and cookie; with a wrong
password it yields the constant 401 response. -/
theorem C2_witness :
    (("a@b.com" : String) ≠ "") ∧ (("p1" : String) ≠ "") ∧
    ((⟨[⟨"A", "a@b.com", "p1#", "u", "t0"⟩], []⟩ : DB).users.find?
        (fun v => v.email == "a@b.com" &&
          v.password == (fun s => String.append s "#") "p1")
      = some ⟨"A", "a@b.com", "p1#", "u", "t0"⟩) ∧
    login (fun s => String.append s "#") ⟨"iss", "aud", "sec"⟩
        ⟨some "a@b.com", some "p1"⟩ ⟨[⟨"A", "a@b.com", "p1#", "u", "t0"⟩], []⟩
      = ⟨200, .token (mkToken ⟨"iss", "aud", "sec"⟩ "A"),
          some (mkToken ⟨"iss", "aud", "sec"⟩ "A")⟩ :=
  ⟨by decide, by decide, by decide,
   ((C2_login_token_and_no_leak (fun s => String.append s "#")
       ⟨"iss", "aud", "sec"⟩ "a@b.com" "p1" (by decide) (by decide)).1
     ⟨[⟨"A", "a@b.com", "p1#", "u", "t0"⟩], []⟩
     ⟨"A", "a@b.com", "p1#", "u", "t0"⟩ (by decide)).1⟩

/-- C7: on a todo id the fetch gate resolves, an update with
absent/empty content is answered 400 with the store fully unchanged;
otherwise the update answers the generic 200 `OK` acknowledgment and
rewrites exactly the content field of the targeted todo in place: the
user collection, the todo count, and every todo's identifier, owner
and creation time are unchanged, untargeted todos are untouched, and
the targeted position carries the new content. -/
theorem C7_update_in_place (todoId : String) (content : Option String)
    (db : DB) (todo : Todo) (hget : getTodo todoId db = .ok todo) :
    (falsy content = true →
      patchTodo todoId content db = (⟨400, .err "Bad Request", none⟩, db)) ∧
    (∀ c, content = some c → c ≠ "" →
      (patchTodo todoId content db).1 = ⟨200, .msg "OK", none⟩ ∧
      (patchTodo todoId content db).2.users = db.users ∧
      (patchTodo todoId content db).2.todos.length = db.todos.length ∧
      ∀ i (h1 : i < (patchTodo todoId content db).2.todos.length)
        (h2 : i < db.todos.length),
        ((patchTodo todoId content db).2.todos[i])._id = (db.todos[i])._id ∧
        ((patchTodo todoId content db).2.todos[i]).userId = (db.todos[i]).userId ∧
        ((patchTodo todoId content db).2.todos[i]).createdTime
          = (db.todos[i]).createdTime ∧
        ((db.todos[i])._id = todo._id →
          ((patchTodo todoId content db).2.todos[i]).content = c) ∧
        ((db.todos[i])._id ≠ todo._id →
          (patchTodo todoId content db).2.todos[i] = db.todos[i])) := by
  constructor
  · intro h
    simp [patchTodo, hget, h]
  · intro c hc hcne
    subst hc
    have hfal : falsy (some c) = false := by
      simp only [falsy]
      rw [Bool.eq_false_iff]
      intro h2
      exact hcne ((String.isEmpty_iff c).mp h2)
    have hred : patchTodo todoId (some c) db = (⟨200, .msg "OK", none⟩,
        { db with todos := db.todos.map (fun t =>
            if t._id == todo._id then { t with content := c } else t) }) := by
      simp [patchTodo, hget, hfal]
    rw [hred]
    refine ⟨rfl, rfl, by simp, ?_⟩
    intro i h1 h2
    simp only [List.getElem_map]
    by_cases hid : (db.todos[i])._id = todo._id
    · simp [hid]
    · simp [hid]

/-- C7 witness: on a one-todo store, updating with empty content
leaves everything unchanged, and updating with `new` succeeds. -/
theorem C7_witness :
    getTodo "000000000000000000000001"
        ⟨[], [⟨"000000000000000000000001", "milk", "t0", "A"⟩]⟩
      = .ok ⟨"000000000000000000000001", "milk", "t0", "A"⟩ ∧
    (patchTodo "000000000000000000000001" (some "new")
        ⟨[], [⟨"000000000000000000000001", "milk", "t0", "A"⟩]⟩).1
      = ⟨200, .msg "OK", none⟩ :=
  ⟨rfl,
   ((C7_update_in_place "000000000000000000000001" (some "new")
       ⟨[], [⟨"000000000000000000000001", "milk", "t0", "A"⟩]⟩
       ⟨"000000000000000000000001", "milk", "t0", "A"⟩ rfl).2
     "new" rfl (by decide)).1⟩

/-- C9: the fetch-by-id gate answers 415 on a malformed store
identifier independently of the store, 404 when no todo carries the
identifier, and otherwise yields the first todo with that identifier;
the delete route then removes exactly that todo — the store splits as
a prefix without the identifier, the found todo, and a suffix, and
deletion drops just the found todo — answering the generic 200 `OK`. -/
theorem C9_gate_and_delete (id : String) (db : DB) :
    (id ≠ "" → isValidObjectId id = false →
      getTodo id db = .error ⟨415, .err "Unsupported Media Type", none⟩) ∧
    (isValidObjectId id = true → db.todos.find? (fun t => t._id == id) = none →
      getTodo id db = .error ⟨404, .err "Not Found", none⟩) ∧
    (∀ t, isValidObjectId id = true →
      db.todos.find? (fun t2 => t2._id == id) = some t →
      getTodo id db = .ok t ∧ t._id = id ∧
      deleteTodo id db = (⟨200, .msg "OK", none⟩,
        ⟨db.users, removeFirstTodo t._id db.todos⟩) ∧
      ∃ l1 l2, db.todos = l1 ++ t :: l2 ∧ (∀ x ∈ l1, x._id ≠ id) ∧
        removeFirstTodo t._id db.todos = l1 ++ l2) := by
  have hlen : isValidObjectId id = true → id.isEmpty = false := by
    intro hv
    cases hie : id.isEmpty
    · rfl
    · have h0 : id = "" := (String.isEmpty_iff id).mp hie
      subst h0
      exact absurd hv (by decide)
  refine ⟨?_, ?_, ?_⟩
  · intro hne hval
    have hie : id.isEmpty = false := by
      rw [Bool.eq_false_iff]
      intro hc
      exact hne ((String.isEmpty_iff id).mp hc)
    simp [getTodo, hie, hval]
  · intro hv hf
    simp [getTodo, hlen hv, hv, hf]
  · intro t hv hf
    have hok : getTodo id db = .ok t := by
      simp [getTodo, hlen hv, hv, hf]
    have htid : t._id = id := by simpa using List.find?_some hf
    obtain ⟨l1, l2, hl, hall⟩ := find?_decomp _ _ _ hf
    have hall2 : ∀ x ∈ l1, x._id ≠ id := by
      intro x hx
      have := hall x hx
      simpa using this
    refine ⟨hok, htid, ?_, l1, l2, hl, hall2, ?_⟩
    · simp [deleteTodo, hok]
    · rw [hl]
      exact removeFirstTodo_decomp t._id l1 l2 t rfl
        (fun x hx => by rw [htid]; exact hall2 x hx)

/-- C9 witness: a syntactically invalid id is refused with 415 on a
concrete store, and deleting an existing todo removes exactly it. -/
theorem C9_witness :
    (("not-an-objectid!" : String) ≠ "") ∧
    isValidObjectId "not-an-objectid!" = false ∧
    getTodo "not-an-objectid!" ⟨[], [⟨"000000000000000000000001", "milk", "t0", "A"⟩]⟩
      = .error ⟨415, .err "Unsupported Media Type", none⟩ :=
  ⟨by decide, by decide,
   (C9_gate_and_delete "not-an-objectid!"
       ⟨[], [⟨"000000000000000000000001", "milk", "t0", "A"⟩]⟩).1
     (by decide) (by decide)⟩

/-- C1 counterexample: the claim that update and delete only modify
todos owned by the authenticated caller fails — a caller verified as
`B` deletes, with a 200 acknowledgment, the todo owned by `A` even
though `A ≠ B`: the gate and the handlers never consult the owner. -/
theorem C1_counterexample :
    verifyToken ⟨"iss", "aud", "sec"⟩ (some ⟨"iss", "aud", "B", "sec", false⟩)
      = some "B" ∧
    deleteTodoRoute ⟨"iss", "aud", "sec"⟩ (some ⟨"iss", "aud", "B", "sec", false⟩)
        "000000000000000000000001"
        ⟨[], [⟨"000000000000000000000001", "milk", "t0", "A"⟩]⟩
      = (⟨200, .msg "OK", none⟩, ⟨[], []⟩) ∧
    ("A" : String) ≠ "B" := by decide

/-- C1 amended: only the list operation is ownership-scoped — every
todo it returns is owned by the caller — while the update-content and
delete routes are not: their outcome is identical for any two
authenticated callers, whoever owns the targeted todo. -/
theorem C1_amended_scoping (cfg : JwtConfig) (uid : String) (db : DB) :
    (∀ ts, (listMine uid db).body = .todoList ts → ∀ t ∈ ts, t.userId = uid) ∧
    (∀ t1 t2 s1 s2, verifyToken cfg (some t1) = some s1 →
      verifyToken cfg (some t2) = some s2 →
      ∀ id c db2,
        patchTodoRoute cfg (some t1) id c db2
          = patchTodoRoute cfg (some t2) id c db2 ∧
        deleteTodoRoute cfg (some t1) id db2
          = deleteTodoRoute cfg (some t2) id db2) := by
  constructor
  · intro ts hts t ht
    by_cases hl : (db.todos.filter (fun t2 => t2.userId == uid)).length = 0
    · simp [listMine, hl] at hts
    · simp [listMine, hl] at hts
      rw [← hts] at ht
      simpa using (List.mem_filter.mp ht).2
  · intro t1 t2 s1 s2 h1 h2 id c db2
    constructor
    · simp [patchTodoRoute, h1, h2]
    · simp [deleteTodoRoute, h1, h2]

/-- C1 amended-claim witness: two different authenticated callers get
the very same result from the delete route on a concrete store. -/
theorem C1_amended_witness :
    verifyToken ⟨"iss", "aud", "sec"⟩ (some ⟨"iss", "aud", "A", "sec", false⟩)
      = some "A" ∧
    verifyToken ⟨"iss", "aud", "sec"⟩ (some ⟨"iss", "aud", "B", "sec", false⟩)
      = some "B" ∧
    deleteTodoRoute ⟨"iss", "aud", "sec"⟩ (some ⟨"iss", "aud", "A", "sec", false⟩)
        "000000000000000000000001"
        ⟨[], [⟨"000000000000000000000001", "milk", "t0", "A"⟩]⟩
      = deleteTodoRoute ⟨"iss", "aud", "sec"⟩ (some ⟨"iss", "aud", "B", "sec", false⟩)
          "000000000000000000000001"
          ⟨[], [⟨"000000000000000000000001", "milk", "t0", "A"⟩]⟩ :=
  ⟨by decide, by decide,
   ((C1_amended_scoping ⟨"iss", "aud", "sec"⟩ "A" ⟨[], []⟩).2
     ⟨"iss", "aud", "A", "sec", false⟩ ⟨"iss", "aud", "B", "sec", false⟩
     "A" "B" (by decide) (by decide) "000000000000000000000001" none
     ⟨[], [⟨"000000000000000000000001", "milk", "t0", "A"⟩]⟩).2⟩

/-- C4 counterexample: the claim that after account deletion a
subsequent list-mine with the same token is unauthorized fails — the
verifier is stateless, so the very token that deleted account `A`
still verifies and list-mine answers 404 Not Found, not the 401
response. -/
theorem C4_counterexample :
    listMineRoute ⟨"iss", "aud", "sec"⟩ (some ⟨"iss", "aud", "A", "sec", false⟩)
        (deleteAccountRoute ⟨"iss", "aud", "sec"⟩
          (some ⟨"iss", "aud", "A", "sec", false⟩)
          ⟨[⟨"A", "a@b.com", "H", "u", "t0"⟩],
           [⟨"000000000000000000000001", "milk", "t0", "A"⟩]⟩).2
      = ⟨404, .err "Not Found", none⟩ ∧
    listMineRoute ⟨"iss", "aud", "sec"⟩ (some ⟨"iss", "aud", "A", "sec", false⟩)
        (deleteAccountRoute ⟨"iss", "aud", "sec"⟩
          (some ⟨"iss", "aud", "A", "sec", false⟩)
          ⟨[⟨"A", "a@b.com", "H", "u", "t0"⟩],
           [⟨"000000000000000000000001", "milk", "t0", "A"⟩]⟩).2
      ≠ unauthorized := by decide

/-- C4 amended: delete-account answers 200, removes the caller's user
record (unique per identifier) and every todo owned by the caller —
zero residual todos — and a subsequent list-mine with the same,
still-valid token answers 404 Not Found, not 401, because the
stateless verifier accepts the token and the identity owns no todos. -/
theorem C4_amended_cascade (cfg : JwtConfig) (tok : JwtToken) (uid : String)
    (db : DB) (hv : verifyToken cfg (some tok) = some uid)
    (hu : (db.users.filter (fun u => u._id == uid)).length ≤ 1) :
    (deleteAccountRoute cfg (some tok) db).1
      = ⟨200, .msg "Account deleted successfully", none⟩ ∧
    (deleteAccountRoute cfg (some tok) db).2.todos.filter
      (fun t => t.userId == uid) = [] ∧
    (deleteAccountRoute cfg (some tok) db).2.users.find?
      (fun u => u._id == uid) = none ∧
    listMineRoute cfg (some tok) (deleteAccountRoute cfg (some tok) db).2
      = ⟨404, .err "Not Found", none⟩ := by
  have hroute : deleteAccountRoute cfg (some tok) db = deleteAccount uid db := by
    simp [deleteAccountRoute, hv]
  rw [hroute]
  have hnil : (deleteAccount uid db).2.todos.filter (fun t => t.userId == uid)
      = [] := by
    rw [List.filter_eq_nil_iff]
    intro a ha
    have ha2 : a ∈ db.todos.filter (fun t => !(t.userId == uid)) := ha
    have h2 := (List.mem_filter.mp ha2).2
    simp at h2 ⊢
    exact h2
  refine ⟨rfl, hnil, removeFirstUser_find?_none uid db.users hu, ?_⟩
  have hlm : listMine uid (deleteAccount uid db).2
      = ⟨404, .err "Not Found", none⟩ := by
    simp [listMine, hnil]
  simp [listMineRoute, hv, hlm]

/-- C4 amended-claim witness: deleting account `A` on a concrete
store leaves no user `A`, no todos of `A`, and the follow-up
list-mine with the old token answers 404. -/
theorem C4_amended_witness :
    verifyToken ⟨"iss", "aud", "sec"⟩ (some ⟨"iss", "aud", "A", "sec", false⟩)
      = some "A" ∧
    ((⟨[⟨"A", "a@b.com", "H", "u", "t0"⟩],
       [⟨"000000000000000000000001", "milk", "t0", "A"⟩]⟩ : DB).users.filter
      (fun u => u._id == "A")).length ≤ 1 ∧
    listMineRoute ⟨"iss", "aud", "sec"⟩ (some ⟨"iss", "aud", "A", "sec", false⟩)
        (deleteAccountRoute ⟨"iss", "aud", "sec"⟩
          (some ⟨"iss", "aud", "A", "sec", false⟩)
          ⟨[⟨"A", "a@b.com", "H", "u", "t0"⟩],
           [⟨"000000000000000000000001", "milk", "t0", "A"⟩]⟩).2
      = ⟨404, .err "Not Found", none⟩ :=
  ⟨by decide, by decide,
   (C4_amended_cascade ⟨"iss", "aud", "sec"⟩ ⟨"iss", "aud", "A", "sec", false⟩
     "A" ⟨[⟨"A", "a@b.com", "H", "u", "t0"⟩],
          [⟨"000000000000000000000001", "milk", "t0", "A"⟩]⟩
     (by decide) (by decide)).2.2.2⟩

end RamiServer
